import Mathlib

/-!
Shallow embedding of the permission resolution engine of the NewShadesDAO
API backend (app/helpers/permissions.py), together with proofs about it.

Records coming from the cache or from durable storage are loosely typed
hash maps from field names to string values.  The one field holding a
JSON-encoded overwrite map (the field named permissions) is modelled in
decoded form: a present value stands for the role-id to permission-list
map its JSON string encodes, an absent value for a record without that
field.  Python json.loads applied to a present (string) value yields the
decoded map; applied to the non-string dict default it raises TypeError,
which the embedding models explicitly.
-/

namespace NewShades

/-- Catalog of permission identifier strings, in the order of the
Permission enumeration of the source. -/
def PERMISSION_VALUES : List String :=
  [ "messages.create", "messages.list",
    "channels.create", "channels.view", "channels.invite", "channels.join",
    "channels.permissions.manage", "channels.kick", "channels.delete",
    "channels.members.list",
    "members.kick",
    "roles.list", "roles.create" ]

/-- SERVER_OWNER_PERMISSIONS of the source: the full catalog. -/
def SERVER_OWNER_PERMISSIONS : List String := PERMISSION_VALUES

/-- CHANNEL_OWNER_PERMISSIONS of the source: the full catalog. -/
def CHANNEL_OWNER_PERMISSIONS : List String := PERMISSION_VALUES

/-- DEFAULT_ROLE_PERMISSIONS of the source. -/
def DEFAULT_ROLE_PERMISSIONS : List String :=
  ["messages.list", "messages.create"]

/-- DEFAULT_DM_MEMBER_PERMISSIONS of the source. -/
def DEFAULT_DM_MEMBER_PERMISSIONS : List String :=
  ["channels.view", "messages.list", "messages.create", "channels.members.list"]

/-- DEFAULT_TOPIC_MEMBER_PERMISSIONS of the source. -/
def DEFAULT_TOPIC_MEMBER_PERMISSIONS : List String :=
  ["channels.view", "messages.list", "messages.create", "channels.members.list"]

/-- DEFAULT_USER_PERMISSIONS of the source. -/
def DEFAULT_USER_PERMISSIONS : List String := ["channels.create"]

/-- A loosely typed record (Python dict / redis hash): plain string
fields, plus the decoded overwrite map of the permissions field when
that field is present. -/
structure Record where
  fields : List (String × String)
  permissions : Option (List (String × List String))
deriving DecidableEq, Repr

/-- The empty record (empty Python dict). -/
def Record.empty : Record := ⟨[], none⟩

/-- Python dict.get on a plain string field: the value when present. -/
def Record.get? (r : Record) (k : String) : Option String :=
  r.fields.lookup k

/-- Python falsiness of a record: a dict is falsy exactly when empty. -/
def Record.isEmpty (r : Record) : Bool :=
  r.fields.isEmpty && r.permissions.isNone

/-- Python truthiness of an optional string: None and the empty string
are falsy, every other string truthy. -/
def pyTruthy : Option String → Bool
  | none => false
  | some s => !(s == "")

/-- Python str() of an optional string as interpolated into f-strings:
None prints as the four letters None. -/
def pyStr : Option String → String
  | none => "None"
  | some s => s

/-- Helper for pySplitComma: split a character list at every separator
occurrence, keeping empty pieces, as Python str.split does. -/
def splitCharsOn (sep : Char) : List Char → List (List Char)
  | [] => [[]]
  | c :: cs =>
    match splitCharsOn sep cs, c == sep with
    | rest, true => [] :: rest
    | [], false => [[c]]
    | r :: rs, false => (c :: r) :: rs

/-- Python str.split with the one-character comma separator: the empty
string splits to the singleton list holding the empty string. -/
def pySplitComma (s : String) : List String :=
  (splitCharsOn ',' s.data).map String.mk

/-- Errors raised by the resolution engine.  notFound models the 404
HTTPException, apiPermission and unknownChannelType and
permissionDenied model the three shapes of APIPermissionError raised in
the source, attributeError models the unhandled Python AttributeError
from calling .split on the list default, typeError the unhandled
TypeError from json.loads applied to the dict default. -/
inductive PermError where
  | notFound (detail : String)
  | apiPermission (message : String)
  | unknownChannelType (channel : Record)
  | permissionDenied (needed_permissions user_permissions : List String)
  | attributeError
  | typeError
deriving DecidableEq, Repr

deriving instance DecidableEq for Except

/-- Embedding of _calc_final_permissions: fold over the user roles in
iteration order, each role contributing its channel overwrite if one
exists, else its section overwrite if one exists, else its own default
set; finally union the channel overwrite of the reserved role-id
public-at-sign. -/
def _calc_final_permissions
    (user_roles section_overwrites channel_overwrites : List (String × List String)) :
    Finset String :=
  let permissions := user_roles.foldl
    (fun permissions rp =>
      match channel_overwrites.lookup rp.1 with
      | some c_permissions => permissions ∪ c_permissions.toFinset
      | none =>
        match section_overwrites.lookup rp.1 with
        | some s_permissions => permissions ∪ s_permissions.toFinset
        | none => permissions ∪ rp.2.toFinset)
    ∅
  permissions ∪ ((channel_overwrites.lookup "@public").getD []).toFinset

/-- The permission set a single user-role entry resolves to under the
strict precedence channel overwrite, then section overwrite, then the
role default set. -/
def roleResolve (section_overwrites channel_overwrites : List (String × List String))
    (rp : String × List String) : Finset String :=
  match channel_overwrites.lookup rp.1 with
  | some c_permissions => c_permissions.toFinset
  | none =>
    match section_overwrites.lookup rp.1 with
    | some s_permissions => s_permissions.toFinset
    | none => rp.2.toFinset

lemma mem_calc_foldl (so co : List (String × List String))
    (l : List (String × List String)) (acc : Finset String) (x : String) :
    x ∈ l.foldl
      (fun permissions rp =>
        match co.lookup rp.1 with
        | some c_permissions => permissions ∪ c_permissions.toFinset
        | none =>
          match so.lookup rp.1 with
          | some s_permissions => permissions ∪ s_permissions.toFinset
          | none => permissions ∪ rp.2.toFinset)
      acc ↔
    x ∈ acc ∨ ∃ rp ∈ l, x ∈ roleResolve so co rp := by
  induction l generalizing acc with
  | nil => simp
  | cons hd tl ih =>
    simp only [List.foldl_cons, List.mem_cons]
    rcases hc : co.lookup hd.1 with _ | c
    · rcases hs : so.lookup hd.1 with _ | s
      · rw [ih]
        simp [roleResolve, hc, hs, Finset.mem_union, or_assoc]
      · rw [ih]
        simp [roleResolve, hc, hs, Finset.mem_union, or_assoc]
    · rw [ih]
      simp [roleResolve, hc, Finset.mem_union, or_assoc]

/-- Membership characterization of _calc_final_permissions. -/
lemma mem_calc_final_permissions
    (ur so co : List (String × List String)) (x : String) :
    x ∈ _calc_final_permissions ur so co ↔
      (∃ rp ∈ ur, x ∈ roleResolve so co rp) ∨
        x ∈ ((co.lookup "@public").getD []).toFinset := by
  unfold _calc_final_permissions
  rw [Finset.mem_union, mem_calc_foldl]
  simp

/-- Cache state of the key-value store, one namespace per entity kind
(the channel:, user:, server: and section: key prefixes). -/
structure Cache where
  channels : List (String × Record)
  users : List (String × Record)
  servers : List (String × Record)
  sections : List (String × Record)
deriving Repr

/-- World the engine runs against: the durable storage records, plus
the external role deriver.  The rolesPerms field is modelled from the
spec: getUserRolesPermissions (app/helpers/users.py is not in the
sources) maps a user record and a server record to the role-id to
permission-set map of the roles that user holds in that server. -/
structure Env where
  dbChannels : List (String × Record)
  dbServers : List (String × Record)
  dbSections : List (String × Record)
  dbUsers : List (String × Record)
  rolesPerms : Record → Record → List (String × List String)

/-- Lookup of a hash in one cache namespace: a missing key reads as the
empty hash. -/
def cacheFind (m : List (String × Record)) (k : String) : Record :=
  (m.lookup k).getD Record.empty

/-- Modelled from the spec: fetchAndCacheChannel (app/helpers/channels.py
is not in the sources).  Reads the authoritative channel record from
durable storage and populates the cache; a truly absent id yields the
empty record, which the caller surfaces as not-found. -/
def fetch_and_cache_channel (env : Env) (cache : Cache) (channel_id : String) :
    Record × Cache :=
  match env.dbChannels.lookup channel_id with
  | some r => (r, { cache with channels := (channel_id, r) :: cache.channels })
  | none => (Record.empty, cache)

/-- Modelled from the spec: fetchAndCacheServer (app/helpers/servers.py
is not in the sources).  Absence is treated as the empty record, not an
error. -/
def fetch_and_cache_server (env : Env) (cache : Cache) (server_id : String) :
    Record × Cache :=
  match env.dbServers.lookup server_id with
  | some r => (r, { cache with servers := (server_id, r) :: cache.servers })
  | none => (Record.empty, cache)

/-- Modelled from the spec: fetchAndCacheSection (app/helpers/sections.py
is not in the sources).  The section id reaching it may be the Python
None value; absence is treated as the empty record. -/
def fetch_and_cache_section (env : Env) (cache : Cache)
    (section_id : Option String) (channel_id : String) : Record × Cache :=
  match section_id with
  | none => (Record.empty, cache)
  | some sid =>
    match env.dbSections.lookup sid with
    | some r => (r, { cache with sections := (sid, r) :: cache.sections })
    | none => (Record.empty, cache)

/-- Modelled from the spec: fetchAndCacheUser (app/helpers/users.py is
not in the sources).  Returns the per-server role record of the user,
the empty record when absent. -/
def fetch_and_cache_user (env : Env) (cache : Cache)
    (user_id : String) (server_id : Option String) : Record × Cache :=
  match env.dbUsers.lookup user_id with
  | some r => (r, { cache with users := (user_id, r) :: cache.users })
  | none => (Record.empty, cache)

/-- Embedding of fetch_cached_permissions_data: the atomic lua script.
Reads the channel hash, the user hash (an empty user key reads the
empty hash), and the server and section hashes named by the server and
section fields of the cached channel hash. -/
def fetch_cached_permissions_data (cache : Cache)
    (channel_id : Option String) (user_id : String) :
    Record × Record × Record × Record :=
  let channel := match channel_id with
    | some cid => cacheFind cache.channels cid
    | none => Record.empty
  let user := if user_id = "" then Record.empty else cacheFind cache.users user_id
  let server := match channel.get? "server" with
    | some sid => cacheFind cache.servers sid
    | none => Record.empty
  let sect := match channel.get? "section" with
    | some sid => cacheFind cache.sections sid
    | none => Record.empty
  (channel, user, server, sect)

/-- Lexicographic code-point comparison of character lists: the order in
which Python sorts strings. -/
def charListLe : List Char → List Char → Bool
  | [], _ => true
  | _ :: _, [] => false
  | a :: as, b :: bs => if a < b then true else if b < a then false else charListLe as bs

lemma charListLe_total : ∀ as bs, charListLe as bs = true ∨ charListLe bs as = true
  | [], _ => Or.inl rfl
  | _ :: _, [] => Or.inr rfl
  | a :: as, b :: bs => by
    by_cases hab : a < b
    · exact Or.inl (by simp [charListLe, hab])
    · by_cases hba : b < a
      · exact Or.inr (by simp [charListLe, hba])
      · rcases charListLe_total as bs with h | h
        · exact Or.inl (by simp [charListLe, hab, hba, h])
        · exact Or.inr (by simp [charListLe, hab, hba, h])

lemma charListLe_trans :
    ∀ as bs cs, charListLe as bs = true → charListLe bs cs = true →
      charListLe as cs = true
  | [], _, cs => by intro _ _; rfl
  | _ :: _, [], _ => by intro h _; simp [charListLe] at h
  | _ :: _, _ :: _, [] => by intro _ h; simp [charListLe] at h
  | a :: as, b :: bs, c :: cs => by
    intro h₁ h₂
    by_cases hab : a < b
    · by_cases hbc : b < c
      · simp [charListLe, lt_trans hab hbc]
      · by_cases hcb : c < b
        · simp [charListLe, hbc, hcb] at h₂
        · have hbceq : b = c := le_antisymm (not_lt.mp hcb) (not_lt.mp hbc)
          subst hbceq
          simp [charListLe, hab]
    · by_cases hba : b < a
      · simp [charListLe, hab, hba] at h₁
      · have habeq : a = b := le_antisymm (not_lt.mp hba) (not_lt.mp hab)
        subst habeq
        simp only [charListLe, lt_irrefl, if_false] at h₁
        by_cases hac : a < c
        · simp [charListLe, hac]
        · by_cases hca : c < a
          · simp [charListLe, hac, hca] at h₂
          · simp only [charListLe, hac, hca, if_false] at h₂ ⊢
            exact charListLe_trans as bs cs h₁ h₂

lemma charListLe_antisymm :
    ∀ as bs, charListLe as bs = true → charListLe bs as = true → as = bs
  | [], [] => by intro _ _; rfl
  | [], _ :: _ => by intro _ h; simp [charListLe] at h
  | _ :: _, [] => by intro h _; simp [charListLe] at h
  | a :: as, b :: bs => by
    intro h₁ h₂
    by_cases hab : a < b
    · simp [charListLe, hab, asymm hab] at h₂
    · by_cases hba : b < a
      · simp [charListLe, hab, hba] at h₁
      · have habeq : a = b := le_antisymm (not_lt.mp hba) (not_lt.mp hab)
        subst habeq
        simp only [charListLe, lt_irrefl, if_false] at h₁ h₂
        rw [charListLe_antisymm as bs h₁ h₂]

/-- Lexicographic code-point order on strings, as Python compares them. -/
def pyStrLe (a b : String) : Prop := charListLe a.data b.data = true

instance : DecidableRel pyStrLe := fun a b =>
  inferInstanceAs (Decidable (charListLe a.data b.data = true))

instance : IsTotal String pyStrLe := ⟨fun a b => charListLe_total a.data b.data⟩

instance : IsTrans String pyStrLe :=
  ⟨fun a b c => charListLe_trans a.data b.data c.data⟩

instance : IsAntisymm String pyStrLe :=
  ⟨fun a b h₁ h₂ => by
    cases a; cases b
    exact congrArg String.mk (charListLe_antisymm _ _ h₁ h₂)⟩

/-- Deterministically sorted list of a permission set, the sorted(list())
of the source: sorting any list enumeration of the set in the code-point
order yields the same list, so the lift along permutations is lawful. -/
def sortedPerms (s : Finset String) : List String :=
  Quot.liftOn s.val (fun l => l.insertionSort pyStrLe)
    (fun _ _ h => List.eq_of_perm_of_sorted
      ((List.perm_insertionSort _ _).trans (h.trans (List.perm_insertionSort _ _).symm))
      (List.sorted_insertionSort _ _) (List.sorted_insertionSort _ _))

/-- Membership in the sorted output is membership in the set. -/
lemma mem_sortedPerms (s : Finset String) (a : String) :
    a ∈ sortedPerms s ↔ a ∈ s := by
  rw [Finset.mem_def]
  unfold sortedPerms
  obtain ⟨l, hl⟩ := Quot.exists_rep s.val
  rw [← hl]
  show a ∈ l.insertionSort pyStrLe ↔ a ∈ (l : Multiset String)
  simp

/-- Embedding of source lines 253 to 256: the section record in effect
after the lazy section fetch.  The fetch fires whenever no section was
obtained, a channel id is present and the section field of the channel
is not the empty string, including when the field is absent (the Python
None value differs from the empty string). -/
def effective_section (env : Env) (cache : Cache) (channel sect : Record)
    (channel_id : Option String) : Record × Cache :=
  if sect.isEmpty && pyTruthy channel_id then
    match channel.get? "section" with
    | some "" => (sect, cache)
    | sid => fetch_and_cache_section env cache sid (pyStr channel_id)
  else (sect, cache)

/-- Embedding of source lines 251, 258 and 259: the parsed section
overwrites.  A nonempty section record without a permissions field makes
json.loads receive the dict default and raise TypeError. -/
def section_overwrites_of (sect : Record) :
    Except PermError (List (String × List String)) :=
  if sect.isEmpty then .ok []
  else
    match sect.permissions with
    | some m => .ok m
    | none => .error .typeError

/-- Embedding of source lines 251 to 267: parse the overwrites, run the
final calculation and sort the result. -/
def finish_resolution (env : Env) (cache : Cache) (channel sect : Record)
    (user_roles : List (String × List String)) (channel_id : Option String) :
    Except PermError (List String) × Cache :=
  match effective_section env cache channel sect channel_id with
  | (sect2, cache2) =>
    match section_overwrites_of sect2 with
    | Except.ok section_overwrites =>
      (.ok (sortedPerms (_calc_final_permissions user_roles section_overwrites
        (channel.permissions.getD []))), cache2)
    | Except.error e => (.error e, cache2)

/-- Embedding of source lines 246 to 248: the user record in effect,
refetched when the cached one is empty or lacks the per-server roles
field of the effective server id. -/
def effective_user (env : Env) (cache : Cache) (user : Record)
    (server_id user_id : Option String) : Record × Cache :=
  if user.isEmpty || !(pyTruthy (user.get? (pyStr server_id ++ ".roles"))) then
    fetch_and_cache_user env cache (user_id.getD "") server_id
  else (user, cache)

/-- Embedding of source lines 245 to 267: when a server record and a
user id are present, derive the user roles from the role deriver,
discarding any seed from the channel dispatch; then finish. -/
def resolve_roles_and_finish (env : Env) (cache : Cache)
    (channel server sect user : Record)
    (user_roles_seed : List (String × List String))
    (channel_id server_id user_id : Option String) :
    Except PermError (List String) × Cache :=
  if !server.isEmpty && pyTruthy user_id then
    match effective_user env cache user server_id user_id with
    | (user2, cache2) =>
      finish_resolution env cache2 channel sect (env.rolesPerms user2 server) channel_id
  else
    finish_resolution env cache channel sect user_roles_seed channel_id

/-- Embedding of the tail of fetch_user_permissions (source lines 239 to
267).  The server-owner short-circuit of lines 241 and 242 runs only
inside the branch that had to fetch the server record because the
snapshot held none.  The user_roles_seed argument is the user_roles
binding flowing in from the channel-kind dispatch. -/
def resolve_rest (env : Env) (cache : Cache) (channel server sect user : Record)
    (user_roles_seed : List (String × List String))
    (channel_id server_id user_id : Option String) :
    Except PermError (List String) × Cache :=
  if pyTruthy server_id && server.isEmpty then
    match fetch_and_cache_server env cache (pyStr server_id) with
    | (server2, cache2) =>
      if pyTruthy user_id && server2.get? "owner" == user_id then
        (.ok SERVER_OWNER_PERMISSIONS, cache2)
      else
        resolve_roles_and_finish env cache2 channel server2 sect user
          user_roles_seed channel_id server_id user_id
  else
    resolve_roles_and_finish env cache channel server sect user
      user_roles_seed channel_id server_id user_id

/-- Embedding of source lines 217 and 218: the channel record in
effect, refetched from durable storage when the cached one is empty or
lacks the kind field. -/
def effective_channel (env : Env) (cache : Cache) (channel0 : Record)
    (cid : String) : Record × Cache :=
  if channel0.isEmpty || (channel0.get? "kind").isNone then
    fetch_and_cache_channel env cache cid
  else (channel0, cache)

/-- Embedding of the channel-kind dispatch and everything after it
(source lines 220 to 267), given the channel record in effect. -/
def dispatch_channel (env : Env) (cache : Cache)
    (channel server0 sect0 user0 : Record)
    (channel_id server_id user_id : Option String) :
    Except PermError (List String) × Cache :=
  if channel.isEmpty then (.error (.notFound "channel not found"), cache)
  else
    match channel.get? "kind" with
    | some "dm" =>
      match channel.get? "members" with
      | none => (.error .attributeError, cache)
      | some ms =>
        if !pyTruthy user_id || !((pySplitComma ms).contains (user_id.getD "")) then
          (.error (.apiPermission "user is not a member of DM channel"), cache)
        else (.ok DEFAULT_DM_MEMBER_PERMISSIONS, cache)
    | some "topic" =>
      if pyTruthy user_id && channel.get? "owner" == user_id then
        (.ok CHANNEL_OWNER_PERMISSIONS, cache)
      else
        match channel.get? "members" with
        | none => (.error .attributeError, cache)
        | some ms =>
          resolve_rest env cache channel server0 sect0 user0
            (if pyTruthy user_id && (pySplitComma ms).contains (user_id.getD "") then
              [("@members", DEFAULT_TOPIC_MEMBER_PERMISSIONS)]
            else [])
            channel_id server_id user_id
    | some "server" =>
      resolve_rest env cache channel server0 sect0 user0 []
        channel_id (channel.get? "server") user_id
    | _ => (.error (.unknownChannelType channel), cache)

/-- Embedding of fetch_user_permissions (source lines 205 to 267). -/
def fetch_user_permissions (env : Env) (cache : Cache)
    (channel_id server_id user_id : Option String) :
    Except PermError (List String) × Cache :=
  if !pyTruthy channel_id && !pyTruthy server_id then
    (.ok DEFAULT_USER_PERMISSIONS, cache)
  else
    match fetch_cached_permissions_data cache channel_id (user_id.getD "") with
    | (channel0, user0, server0, sect0) =>
      if pyTruthy channel_id then
        match effective_channel env cache channel0 (pyStr channel_id) with
        | (channel, cache2) =>
          dispatch_channel env cache2 channel server0 sect0 user0
            channel_id server_id user_id
      else
        resolve_rest env cache channel0 server0 sect0 user0 []
          channel_id server_id user_id

/-- Inbound request abstraction: the URL path, and the parsed JSON body
when the body parses to a dict of string fields (none models an empty,
unparsable or non-dict body). -/
structure Request where
  path : String
  body : Option (List (String × String))

/-- Embedding of _fetch_fields_from_request_body: the first listed field
whose value in the body dict is truthy. -/
def _fetch_fields_from_request_body (fields : List String) (req : Request) :
    Option String :=
  match req.body with
  | none => none
  | some body =>
    fields.findSome? (fun field =>
      match body.lookup field with
      | some v => if v.isEmpty then none else some v
      | none => none)

/-- Match of the anchored path regex of the extractors: when the path
starts with the given literal prefix followed by at least 24 characters
none of which is a newline (the regex dot matches no newline), yield
those 24 characters. -/
def pathIdMatch (pre : String) (path : String) : Option String :=
  let rest := path.data.drop pre.data.length
  if path.data.take pre.data.length == pre.data && rest.length ≥ 24 &&
      (rest.take 24).all (fun c => c != '\n') then
    some (String.mk (rest.take 24))
  else none

/-- Embedding of _fetch_channel_from_request: a path matching the
channels prefix regex yields the 24 characters after the prefix; else
fall back to the channel and channel_id body fields. -/
def _fetch_channel_from_request (req : Request) : Option String :=
  match pathIdMatch "/channels/" req.path with
  | some v => some v
  | none => _fetch_fields_from_request_body ["channel", "channel_id"] req

/-- Embedding of _fetch_server_from_request, symmetric to the channel
extractor with the servers prefix and the server and server_id body
fields. -/
def _fetch_server_from_request (req : Request) : Option String :=
  match pathIdMatch "/servers/" req.path with
  | some v => some v
  | none => _fetch_fields_from_request_body ["server", "server_id"] req

/-- Embedding of check_request_permissions: extract the context ids,
resolve the permissions of the current user, and fail with a
permissionDenied error carrying the required and the actual sets when a
required permission is missing from the resolved set. -/
def check_request_permissions (env : Env) (cache : Cache) (req : Request)
    (permissions : List String) (current_user : Option String) :
    Except PermError Unit × Cache :=
  let channel_id := _fetch_channel_from_request req
  let server_id := _fetch_server_from_request req
  let user_id := current_user
  match fetch_user_permissions env cache channel_id server_id user_id with
  | (Except.ok user_permissions, c) =>
    if permissions.all (fun p => user_permissions.contains p) then (.ok (), c)
    else (.error (.permissionDenied permissions user_permissions), c)
  | (Except.error e, c) => (.error e, c)

/-! Concrete worlds and snapshots used to evaluate the engine at
specific inputs. -/

/-- Cache with no entries. -/
def cacheEmpty : Cache := ⟨[], [], [], []⟩

/-- World with no records and a role deriver granting no roles. -/
def envEmptyRoles : Env := ⟨[], [], [], [], fun _ _ => []⟩

/-- Server record owned by alice. -/
def serverRecC1 : Record := ⟨[("owner", "alice")], none⟩

/-- Server-kind channel pointing at the server s1. -/
def chanC1 : Record := ⟨[("kind", "server"), ("server", "s1")], none⟩

/-- World holding the server-kind channel and its server, with a role
deriver granting no roles. -/
def envC1 : Env := ⟨[("chan1", chanC1)], [("s1", serverRecC1)], [], [], fun _ _ => []⟩

/-- Cache snapshot already holding both the channel and its server
record. -/
def cacheC1 : Cache := ⟨[("chan1", chanC1)], [], [("s1", serverRecC1)], []⟩

/-- DM channel with members a and b. -/
def chanC4 : Record := ⟨[("kind", "dm"), ("members", "a,b")], none⟩

/-- Cache snapshot holding the DM channel. -/
def cacheC4 : Cache := ⟨[("d1", chanC4)], [], [], []⟩

/-- Topic channel owned by own whose member bob is silenced by an
explicit empty channel overwrite for the synthetic members role. -/
def chanC5 : Record :=
  ⟨[("kind", "topic"), ("owner", "own"), ("members", "bob")],
    some [("@members", [])]⟩

/-- World holding the silenced topic channel. -/
def envC5 : Env := ⟨[("t1", chanC5)], [], [], [], fun _ _ => []⟩

/-- Topic channel owned by own with members bob and eve and no
overwrites. -/
def chanC5w : Record :=
  ⟨[("kind", "topic"), ("owner", "own"), ("members", "bob,eve")], none⟩

/-- Cache snapshot holding the plain topic channel. -/
def cacheC5 : Cache := ⟨[("t1", chanC5w)], [], [], []⟩

/-- World holding one DM channel in durable storage only. -/
def envC6 : Env := ⟨[("c1", chanC4)], [], [], [], fun _ _ => []⟩

/-- Channel record of an unrecognized kind. -/
def chanC7 : Record := ⟨[("kind", "bogus")], none⟩

/-- Cache snapshot holding the unrecognized-kind channel. -/
def cacheC7 : Cache := ⟨[("x1", chanC7)], [], [], []⟩

/-- Server-kind channel declaring the section sec1. -/
def chanC8 : Record :=
  ⟨[("kind", "server"), ("server", "s8"), ("section", "sec1")], none⟩

/-- World where the channel declares a section whose record has no
permissions field. -/
def envC8 : Env :=
  ⟨[("c8", chanC8)], [("s8", ⟨[("owner", "o8")], none⟩)],
    [("sec1", ⟨[("name", "general")], none⟩)], [], fun _ _ => []⟩

/-- DM channel record with no members field at all. -/
def chanC10 : Record := ⟨[("kind", "dm")], none⟩

/-- Cache snapshot holding the members-less DM channel. -/
def cacheC10 : Cache := ⟨[("d0", chanC10)], [], [], []⟩

/-! Helper lemmas. -/

lemma pyTruthy_some {s : String} (h : s ≠ "") : pyTruthy (some s) = true := by
  simp [pyTruthy, h]

lemma isEmpty_false_of_get {r : Record} {k v : String} (h : r.get? k = some v) :
    r.isEmpty = false := by
  rcases r with ⟨fields, perms⟩
  cases fields with
  | nil => simp [Record.get?] at h
  | cons hd tl => rfl

lemma sortedPerms_empty : sortedPerms ∅ = [] := rfl

lemma isEmpty_empty : Record.empty.isEmpty = true := rfl

/-! Claims C2 and C3: the resolution algorithm. -/

/-- C2: the resolution algorithm returns exactly the union, over the
role entries the user holds, of the channel overwrite for that role-id
if one exists, else the section overwrite if one exists, else the role
default set, unioned with the channel overwrite of the public role-id;
tiers are never merged for one role-id, and the public overwrite is in
the result for every user. -/
theorem claim_C2_resolution_is_union
    (user_roles section_overwrites channel_overwrites : List (String × List String))
    (x : String) :
    x ∈ _calc_final_permissions user_roles section_overwrites channel_overwrites ↔
      (∃ rp ∈ user_roles, x ∈ roleResolve section_overwrites channel_overwrites rp) ∨
        x ∈ ((channel_overwrites.lookup "@public").getD []).toFinset :=
  mem_calc_final_permissions user_roles section_overwrites channel_overwrites x

/-- C3: the final set is invariant under reordering of the user role
entries. -/
theorem claim_C3_role_order_invariance
    (ur₁ ur₂ so co : List (String × List String)) (h : ur₁.Perm ur₂) :
    _calc_final_permissions ur₁ so co = _calc_final_permissions ur₂ so co := by
  ext x
  rw [mem_calc_final_permissions, mem_calc_final_permissions]
  constructor <;> rintro (⟨rp, hrp, hx⟩ | hp)
  · exact Or.inl ⟨rp, h.mem_iff.mp hrp, hx⟩
  · exact Or.inr hp
  · exact Or.inl ⟨rp, h.mem_iff.mpr hrp, hx⟩
  · exact Or.inr hp

/-- Witness for C3 at a concrete reordered pair of role maps. -/
theorem claim_C3_role_order_invariance_witness :
    ([("a", ["p"]), ("b", ["q"])] : List (String × List String)).Perm
        [("b", ["q"]), ("a", ["p"])]
    ∧ _calc_final_permissions [("a", ["p"]), ("b", ["q"])] [] [("a", ["r"])]
        = _calc_final_permissions [("b", ["q"]), ("a", ["p"])] [] [("a", ["r"])] :=
  ⟨List.Perm.swap _ _ _,
    claim_C3_role_order_invariance _ _ _ _ (List.Perm.swap _ _ _)⟩

/-! Claim C1: the server-owner short-circuit. -/

/-- C1 (amended): the server owner receives the full catalog whenever
the effective server id is supplied directly with no channel, or is
adopted from a server-kind channel whose snapshot held no server
record; when the snapshot already holds the server record the owner
check of lines 241 and 242 is skipped. -/
theorem claim_C1_owner_short_circuit (env : Env) (cache : Cache)
    (S U : String) (srec : Record)
    (hS : S ≠ "") (hU : U ≠ "")
    (hdb : env.dbServers.lookup S = some srec)
    (howner : srec.get? "owner" = some U) :
    ((fetch_user_permissions env cache none (some S) (some U)).1
        = .ok SERVER_OWNER_PERMISSIONS)
    ∧ (∀ cid chan, cid ≠ "" →
        cache.channels.lookup cid = some chan →
        chan.get? "kind" = some "server" →
        chan.get? "server" = some S →
        (cacheFind cache.servers S).isEmpty = true →
        (fetch_user_permissions env cache (some cid) none (some U)).1
          = .ok SERVER_OWNER_PERMISSIONS) := by
  have howner' : List.lookup "owner" srec.fields = some U := howner
  constructor
  · unfold fetch_user_permissions fetch_cached_permissions_data resolve_rest
    simp [pyTruthy, pyStr, Record.empty, Record.get?, Record.isEmpty,
      fetch_and_cache_server, hdb, howner', hS, hU]
  · intro cid chan hcid hlook hkind hserver hsrvempty
    have hsrv' : ((List.lookup S cache.servers).getD Record.empty).isEmpty = true :=
      hsrvempty
    unfold fetch_user_permissions fetch_cached_permissions_data effective_channel
      dispatch_channel resolve_rest
    simp [pyTruthy, pyStr, cacheFind, hlook, hkind, hserver,
      isEmpty_false_of_get hkind, hsrv', fetch_and_cache_server, hdb,
      howner, howner', hS, hU, hcid]

/-- Witness for the amended C1 at a concrete world: with a cold cache
the owner alice of server s1 receives the full catalog on both entry
paths. -/
theorem claim_C1_owner_short_circuit_witness :
    ((fetch_user_permissions envC1 cacheEmpty none (some "s1") (some "alice")).1
        = .ok SERVER_OWNER_PERMISSIONS)
    ∧ ((fetch_user_permissions envC1
          ⟨[("chan1", chanC1)], [], [], []⟩ (some "chan1") none (some "alice")).1
        = .ok SERVER_OWNER_PERMISSIONS) := by
  have h := claim_C1_owner_short_circuit envC1 cacheEmpty "s1" "alice" serverRecC1
    (by decide) (by decide) (by decide) (by decide)
  have h2 := claim_C1_owner_short_circuit envC1
    ⟨[("chan1", chanC1)], [], [], []⟩ "s1" "alice" serverRecC1
    (by decide) (by decide) (by decide) (by decide)
  exact ⟨h.1, h2.2 "chan1" chanC1 (by decide) (by decide) (by decide) (by decide)
    (by decide)⟩

/-- Counterexample to C1 as stated: when the snapshot already holds the
server record of a server-kind channel, the owner alice of that server
resolves to the empty permission list, not the full catalog. -/
theorem claim_C1_counterexample :
    envC1.dbServers.lookup "s1" = some serverRecC1
    ∧ serverRecC1.get? "owner" = some "alice"
    ∧ cacheC1.servers.lookup "s1" = some serverRecC1
    ∧ (fetch_user_permissions envC1 cacheC1 (some "chan1") none (some "alice")).1
        = .ok []
    ∧ (Except.ok ([] : List String) : Except PermError (List String))
        ≠ .ok SERVER_OWNER_PERMISSIONS := by
  refine ⟨by decide, by decide, by decide, by decide, by decide⟩

/-! Claim C4: DM exclusivity. -/

/-- C4: for a DM channel record carrying its member string, resolution
fails with the DM APIPermissionError exactly when the user id is absent
or not among the comma-split members, and a member receives exactly the
DM default set with no further resolution. -/
theorem claim_C4_dm_exclusivity (env : Env) (cache : Cache)
    (cid ms : String) (chan : Record) (server_id user_id : Option String)
    (hcid : cid ≠ "")
    (hlook : cache.channels.lookup cid = some chan)
    (hkind : chan.get? "kind" = some "dm")
    (hmem : chan.get? "members" = some ms) :
    ((fetch_user_permissions env cache (some cid) server_id user_id).1
        = .error (.apiPermission "user is not a member of DM channel")
      ↔ ¬(pyTruthy user_id = true ∧ user_id.getD "" ∈ pySplitComma ms))
    ∧ ((pyTruthy user_id = true ∧ user_id.getD "" ∈ pySplitComma ms) →
        (fetch_user_permissions env cache (some cid) server_id user_id).1
          = .ok DEFAULT_DM_MEMBER_PERMISSIONS) := by
  have hred : (fetch_user_permissions env cache (some cid) server_id user_id)
      = if !pyTruthy user_id || !((pySplitComma ms).contains (user_id.getD "")) then
          (.error (.apiPermission "user is not a member of DM channel"), cache)
        else (.ok DEFAULT_DM_MEMBER_PERMISSIONS, cache) := by
    unfold fetch_user_permissions fetch_cached_permissions_data effective_channel
      dispatch_channel
    simp [pyTruthy, cacheFind, hlook, hkind, hmem, isEmpty_false_of_get hkind,
      hcid, pyStr]
  rw [hred]
  cases hu : pyTruthy user_id with
  | false => simp [hu]
  | true =>
    cases hc : (pySplitComma ms).contains (user_id.getD "") with
    | false =>
      have hnm : ¬ user_id.getD "" ∈ pySplitComma ms := fun hmem => by
        have hc2 : (pySplitComma ms).contains (user_id.getD "") = true :=
          List.elem_iff.mpr hmem
        rw [hc2] at hc
        cases hc
      simp [hu, hc, hnm]
    | true =>
      have hm : user_id.getD "" ∈ pySplitComma ms := List.elem_iff.mp hc
      simp [hu, hc, hm]

/-- Witness for C4 at the concrete DM channel with members a and b,
resolving for the member a. -/
theorem claim_C4_dm_exclusivity_witness :
    (((fetch_user_permissions envEmptyRoles cacheC4 (some "d1") none (some "a")).1
        = .error (.apiPermission "user is not a member of DM channel"))
      ↔ ¬(pyTruthy (some "a") = true ∧ (some "a").getD "" ∈ pySplitComma "a,b"))
    ∧ ((pyTruthy (some "a") = true ∧ (some "a").getD "" ∈ pySplitComma "a,b") →
        (fetch_user_permissions envEmptyRoles cacheC4 (some "d1") none (some "a")).1
          = .ok DEFAULT_DM_MEMBER_PERMISSIONS) :=
  claim_C4_dm_exclusivity envEmptyRoles cacheC4 "d1" "a,b" chanC4 none (some "a")
    (by decide) (by decide) (by decide) (by decide)

/-! Claim C10: the DM branch on a record without a members field. -/

/-- C10: for a DM channel record with no members field, the membership
test calls .split on the list default and the resolution raises an
unhandled AttributeError for every user id, instead of the documented
Forbidden or NotFound outcomes. -/
theorem claim_C10_dm_missing_members (env : Env) (cache : Cache) (cid : String)
    (chan : Record) (server_id user_id : Option String)
    (hcid : cid ≠ "")
    (hlook : cache.channels.lookup cid = some chan)
    (hkind : chan.get? "kind" = some "dm")
    (hmem : chan.get? "members" = none) :
    (fetch_user_permissions env cache (some cid) server_id user_id).1
      = .error .attributeError := by
  unfold fetch_user_permissions fetch_cached_permissions_data effective_channel
    dispatch_channel
  simp [pyTruthy, cacheFind, hlook, hkind, hmem, isEmpty_false_of_get hkind,
    hcid, pyStr]

/-- Witness for C10 at the concrete members-less DM channel. -/
theorem claim_C10_dm_missing_members_witness :
    (fetch_user_permissions envEmptyRoles cacheC10 (some "d0") none (some "u")).1
      = .error .attributeError :=
  claim_C10_dm_missing_members envEmptyRoles cacheC10 "d0" chanC10 none (some "u")
    (by decide) (by decide) (by decide) (by decide)

/-! Claim C7: unrecognized channel kinds are rejected. -/

/-- C7: a channel record whose kind is none of dm, topic or server
makes resolution fail with the unknown-channel-type APIPermissionError
for every user id, whether the record came from the snapshot or had to
be fetched from durable storage; no default or role permissions are
granted. -/
theorem claim_C7_unknown_kind (env : Env) (cache : Cache) (cid k : String)
    (chan : Record) (server_id user_id : Option String)
    (hcid : cid ≠ "")
    (hkind : chan.get? "kind" = some k)
    (hk1 : k ≠ "dm") (hk2 : k ≠ "topic") (hk3 : k ≠ "server") :
    (cache.channels.lookup cid = some chan →
      (fetch_user_permissions env cache (some cid) server_id user_id).1
        = .error (.unknownChannelType chan))
    ∧ (((cacheFind cache.channels cid).isEmpty = true
          ∨ (cacheFind cache.channels cid).get? "kind" = none) →
        env.dbChannels.lookup cid = some chan →
        (fetch_user_permissions env cache (some cid) server_id user_id).1
          = .error (.unknownChannelType chan)) := by
  constructor
  · intro hlook
    unfold fetch_user_permissions fetch_cached_permissions_data effective_channel
      dispatch_channel
    simp only [pyTruthy, cacheFind, hlook, hkind, isEmpty_false_of_get hkind,
      pyStr, Option.getD_some, Option.isNone_some, Bool.or_false, Bool.not_eq_true]
    simp [hcid, hkind, isEmpty_false_of_get hkind]
    split <;> simp_all
  · intro hmiss hdb
    have hcond : ((cacheFind cache.channels cid).isEmpty
        || ((cacheFind cache.channels cid).get? "kind").isNone) = true := by
      rcases hmiss with h | h
      · simp [h]
      · simp [h]
    unfold fetch_user_permissions fetch_cached_permissions_data effective_channel
      dispatch_channel fetch_and_cache_channel
    simp [pyTruthy, hcid, pyStr, cacheFind] at hcond ⊢
    rcases hcond with h | h
    · simp [h, hdb, hkind, isEmpty_false_of_get hkind]
      split <;> simp_all
    · simp [h, hdb, hkind, isEmpty_false_of_get hkind]
      split <;> simp_all

/-- Witness for C7 at the concrete channel of kind bogus, cached and
cold. -/
theorem claim_C7_unknown_kind_witness :
    (fetch_user_permissions envEmptyRoles cacheC7 (some "x1") none (some "u")).1
      = .error (.unknownChannelType chanC7) := by
  have h := claim_C7_unknown_kind envEmptyRoles cacheC7 "x1" "bogus" chanC7
    none (some "u") (by decide) (by decide) (by decide) (by decide) (by decide)
  exact h.1 (by decide)

/-! Claim C6: cache repopulation of the channel and the not-found
failure.  The lemmas below show that no stage after the channel check
can produce the not-found error and that no stage after the channel
fetch touches the channel namespace of the cache. -/

lemma section_overwrites_of_error (sect : Record) (e : PermError)
    (h : section_overwrites_of sect = .error e) : e = .typeError := by
  unfold section_overwrites_of at h
  split at h
  · cases h
  · split at h
    · cases h
    · exact (Except.error.inj h).symm

lemma finish_resolution_ne_notFound (env : Env) (cache : Cache)
    (channel sect : Record) (ur : List (String × List String))
    (channel_id : Option String) (d : String) :
    (finish_resolution env cache channel sect ur channel_id).1
      ≠ .error (.notFound d) := by
  unfold finish_resolution
  rcases h : effective_section env cache channel sect channel_id with ⟨s2, c2⟩
  dsimp only
  rcases h2 : section_overwrites_of s2 with e | so
  · simp [section_overwrites_of_error s2 e h2]
  · simp

lemma resolve_roles_ne_notFound (env : Env) (cache : Cache)
    (channel server sect user : Record) (seed : List (String × List String))
    (channel_id server_id user_id : Option String) (d : String) :
    (resolve_roles_and_finish env cache channel server sect user seed
        channel_id server_id user_id).1 ≠ .error (.notFound d) := by
  unfold resolve_roles_and_finish
  split
  · rcases h : effective_user env cache user server_id user_id with ⟨u2, c2⟩
    dsimp only
    apply finish_resolution_ne_notFound
  · apply finish_resolution_ne_notFound

lemma resolve_rest_ne_notFound (env : Env) (cache : Cache)
    (channel server sect user : Record) (seed : List (String × List String))
    (channel_id server_id user_id : Option String) (d : String) :
    (resolve_rest env cache channel server sect user seed
        channel_id server_id user_id).1 ≠ .error (.notFound d) := by
  unfold resolve_rest
  split
  · rcases h : fetch_and_cache_server env cache (pyStr server_id) with ⟨s2, c2⟩
    dsimp only
    split
    · simp
    · apply resolve_roles_ne_notFound
  · apply resolve_roles_ne_notFound

lemma dispatch_channel_ne_notFound (env : Env) (cache : Cache)
    (channel server0 sect0 user0 : Record)
    (channel_id server_id user_id : Option String) (d : String)
    (h : channel.isEmpty = false) :
    (dispatch_channel env cache channel server0 sect0 user0
        channel_id server_id user_id).1 ≠ .error (.notFound d) := by
  unfold dispatch_channel
  simp only [h, Bool.false_eq_true, if_false]
  split
  · split
    · simp
    · split <;> simp
  · split
    · simp
    · split
      · simp
      · apply resolve_rest_ne_notFound
  · apply resolve_rest_ne_notFound
  · simp

lemma channels_fetch_and_cache_server (env : Env) (cache : Cache) (sid : String) :
    (fetch_and_cache_server env cache sid).2.channels = cache.channels := by
  unfold fetch_and_cache_server
  split <;> rfl

lemma channels_effective_section (env : Env) (cache : Cache)
    (channel sect : Record) (channel_id : Option String) :
    (effective_section env cache channel sect channel_id).2.channels
      = cache.channels := by
  unfold effective_section fetch_and_cache_section
  split
  · split
    · rfl
    · split
      · rfl
      · split <;> rfl
  · rfl

lemma channels_effective_user (env : Env) (cache : Cache) (user : Record)
    (server_id user_id : Option String) :
    (effective_user env cache user server_id user_id).2.channels
      = cache.channels := by
  unfold effective_user fetch_and_cache_user
  split
  · split <;> rfl
  · rfl

lemma channels_finish_resolution (env : Env) (cache : Cache)
    (channel sect : Record) (ur : List (String × List String))
    (channel_id : Option String) :
    (finish_resolution env cache channel sect ur channel_id).2.channels
      = cache.channels := by
  unfold finish_resolution
  rcases h : effective_section env cache channel sect channel_id with ⟨s2, c2⟩
  have hc : c2.channels = cache.channels := by
    rw [← channels_effective_section env cache channel sect channel_id, h]
  dsimp only
  rcases h2 : section_overwrites_of s2 with e | so
  · simpa using hc
  · simpa using hc

lemma channels_resolve_roles (env : Env) (cache : Cache)
    (channel server sect user : Record) (seed : List (String × List String))
    (channel_id server_id user_id : Option String) :
    (resolve_roles_and_finish env cache channel server sect user seed
        channel_id server_id user_id).2.channels = cache.channels := by
  unfold resolve_roles_and_finish
  split
  · rcases h : effective_user env cache user server_id user_id with ⟨u2, c2⟩
    have hc : c2.channels = cache.channels := by
      rw [← channels_effective_user env cache user server_id user_id, h]
    dsimp only
    rw [channels_finish_resolution]
    exact hc
  · rw [channels_finish_resolution]

lemma channels_resolve_rest (env : Env) (cache : Cache)
    (channel server sect user : Record) (seed : List (String × List String))
    (channel_id server_id user_id : Option String) :
    (resolve_rest env cache channel server sect user seed
        channel_id server_id user_id).2.channels = cache.channels := by
  unfold resolve_rest
  split
  · rcases h : fetch_and_cache_server env cache (pyStr server_id) with ⟨s2, c2⟩
    have hc : c2.channels = cache.channels := by
      rw [← channels_fetch_and_cache_server env cache (pyStr server_id), h]
    dsimp only
    split
    · simpa using hc
    · rw [channels_resolve_roles]
      exact hc
  · rw [channels_resolve_roles]

lemma channels_dispatch (env : Env) (cache : Cache)
    (channel server0 sect0 user0 : Record)
    (channel_id server_id user_id : Option String) :
    (dispatch_channel env cache channel server0 sect0 user0
        channel_id server_id user_id).2.channels = cache.channels := by
  unfold dispatch_channel
  split
  · rfl
  · split
    · split
      · rfl
      · split <;> rfl
    · split
      · rfl
      · split
        · rfl
        · rw [channels_resolve_rest]
    · rw [channels_resolve_rest]
    · rfl

/-- Plumbing lemma: with a channel id present and the snapshot channel
empty or kind-less, resolution refetches the channel and dispatches on
the result. -/
lemma fetch_user_permissions_cold (env : Env) (cache : Cache) (cid : String)
    (server_id user_id : Option String)
    (hcid : cid ≠ "")
    (hcond : ((cacheFind cache.channels cid).isEmpty
      || ((cacheFind cache.channels cid).get? "kind").isNone) = true) :
    fetch_user_permissions env cache (some cid) server_id user_id
      = dispatch_channel env (fetch_and_cache_channel env cache cid).2
          (fetch_and_cache_channel env cache cid).1
          (match (cacheFind cache.channels cid).get? "server" with
            | some sid => cacheFind cache.servers sid
            | none => Record.empty)
          (match (cacheFind cache.channels cid).get? "section" with
            | some sid => cacheFind cache.sections sid
            | none => Record.empty)
          (if user_id.getD "" = "" then Record.empty
            else cacheFind cache.users (user_id.getD ""))
          (some cid) server_id user_id := by
  unfold fetch_user_permissions fetch_cached_permissions_data effective_channel
  simp [pyTruthy, hcid, pyStr, hcond]

/-- C6: with a supplied channel id whose snapshot record is absent or
kind-less, the channel is refetched from durable storage, the cache is
repopulated with the fetched record, and the call fails with the 404
not-found error exactly when the channel is absent from durable storage
too. -/
theorem claim_C6_refetch_notfound (env : Env) (cache : Cache) (cid : String)
    (server_id user_id : Option String)
    (hcid : cid ≠ "")
    (hmiss : (cacheFind cache.channels cid).isEmpty = true
      ∨ (cacheFind cache.channels cid).get? "kind" = none)
    (hdb : ∀ r, env.dbChannels.lookup cid = some r → r.isEmpty = false) :
    ((fetch_user_permissions env cache (some cid) server_id user_id).1
        = .error (.notFound "channel not found")
      ↔ env.dbChannels.lookup cid = none)
    ∧ (∀ r, env.dbChannels.lookup cid = some r →
        (fetch_user_permissions env cache (some cid) server_id user_id).2.channels.lookup
            cid = some r) := by
  have hcond : ((cacheFind cache.channels cid).isEmpty
      || ((cacheFind cache.channels cid).get? "kind").isNone) = true := by
    rcases hmiss with h | h
    · simp [h]
    · simp [h]
  rw [fetch_user_permissions_cold env cache cid server_id user_id hcid hcond]
  rcases hdbl : env.dbChannels.lookup cid with _ | r
  · have hfetch : fetch_and_cache_channel env cache cid = (Record.empty, cache) := by
      unfold fetch_and_cache_channel
      rw [hdbl]
    rw [hfetch]
    constructor
    · simp [dispatch_channel, Record.empty, Record.isEmpty]
    · intro r hr
      simp at hr
  · have hre : r.isEmpty = false := hdb r hdbl
    have hfetch : fetch_and_cache_channel env cache cid
        = (r, { cache with channels := (cid, r) :: cache.channels }) := by
      unfold fetch_and_cache_channel
      rw [hdbl]
    rw [hfetch]
    dsimp only
    constructor
    · constructor
      · intro hEq
        exact absurd hEq (dispatch_channel_ne_notFound _ _ _ _ _ _ _ _ _ _ hre)
      · intro hFalse
        simp at hFalse
    · intro r2 hr2
      have hr3 : r = r2 := by injection hr2
      subst hr3
      rw [channels_dispatch]
      simp [List.lookup]

/-- Witness for C6 at a cold cache and a durable DM channel. -/
theorem claim_C6_refetch_notfound_witness :
    (((fetch_user_permissions envC6 cacheEmpty (some "c1") none (some "a")).1
        = .error (.notFound "channel not found"))
      ↔ envC6.dbChannels.lookup "c1" = none)
    ∧ (∀ r, envC6.dbChannels.lookup "c1" = some r →
        (fetch_user_permissions envC6 cacheEmpty (some "c1") none (some "a")).2.channels.lookup
            "c1" = some r) :=
  claim_C6_refetch_notfound envC6 cacheEmpty "c1" none (some "a")
    (by decide) (Or.inl (by decide))
    (fun r h => by
      have h2 : some chanC4 = some r := h
      cases h2
      decide)

/-! Claim C5: topic channel resolution. -/

/-- C5 (amended): for a topic channel resolved without a server context
(no caller server id, no server field): the owner receives the full
catalog; a listed non-owner member receives at least the topic default
set provided no channel overwrite silences the synthetic members
role-id (the section is empty here, the channel declaring none); and a
non-member receives the empty set provided no public channel overwrite
exists. -/
theorem claim_C5_topic_amended (env : Env) (cache : Cache) (cid ms owner : String)
    (chan : Record)
    (hcid : cid ≠ "")
    (hlook : cache.channels.lookup cid = some chan)
    (hkind : chan.get? "kind" = some "topic")
    (howner : chan.get? "owner" = some owner)
    (hmem : chan.get? "members" = some ms)
    (hserver : chan.get? "server" = none)
    (hsect : chan.get? "section" = none) :
    (owner ≠ "" →
      (fetch_user_permissions env cache (some cid) none (some owner)).1
        = .ok CHANNEL_OWNER_PERMISSIONS)
    ∧ (∀ uid, uid ≠ "" → uid ≠ owner → uid ∈ pySplitComma ms →
        (chan.permissions.getD []).lookup "@members" = none →
        ∀ p ∈ DEFAULT_TOPIC_MEMBER_PERMISSIONS,
          ∃ l, (fetch_user_permissions env cache (some cid) none (some uid)).1
              = .ok l ∧ p ∈ l)
    ∧ (∀ uid, uid ≠ "" → uid ≠ owner → uid ∉ pySplitComma ms →
        (chan.permissions.getD []).lookup "@public" = none →
        (fetch_user_permissions env cache (some cid) none (some uid)).1 = .ok []) := by
  have hred : ∀ (uid : String), uid ≠ "" → uid ≠ owner →
      (fetch_user_permissions env cache (some cid) none (some uid)).1
        = .ok (sortedPerms (_calc_final_permissions
            (if (pySplitComma ms).contains uid then
              [("@members", DEFAULT_TOPIC_MEMBER_PERMISSIONS)]
            else [])
            [] (chan.permissions.getD []))) := by
    intro uid huid hne
    unfold fetch_user_permissions fetch_cached_permissions_data effective_channel
      dispatch_channel resolve_rest resolve_roles_and_finish finish_resolution
      effective_section fetch_and_cache_section section_overwrites_of
    simp [pyTruthy, cacheFind, hlook, hkind, howner, hmem, hserver, hsect,
      isEmpty_false_of_get hkind, hcid, huid, pyStr, isEmpty_empty,
      hne, Ne.symm hne]
  refine ⟨?_, ?_, ?_⟩
  · intro howne
    unfold fetch_user_permissions fetch_cached_permissions_data effective_channel
      dispatch_channel
    simp [pyTruthy, cacheFind, hlook, hkind, howner, isEmpty_false_of_get hkind,
      hcid, howne, pyStr]
  · intro uid huid hne hmemb hnomem p hp
    have hc : (pySplitComma ms).contains uid = true := List.elem_iff.mpr hmemb
    refine ⟨_, hred uid huid hne, ?_⟩
    simp only [hc, if_true]
    rw [mem_sortedPerms, mem_calc_final_permissions]
    left
    refine ⟨("@members", DEFAULT_TOPIC_MEMBER_PERMISSIONS), by simp, ?_⟩
    unfold roleResolve
    simp [hnomem, hp]
  · intro uid huid hne hnm hnopub
    have hc : (pySplitComma ms).contains uid = false := by
      cases hcc : (pySplitComma ms).contains uid
      · rfl
      · exact absurd (List.elem_iff.mp hcc) hnm
    rw [hred uid huid hne]
    have hcalc : _calc_final_permissions
        (if (pySplitComma ms).contains uid then
          [("@members", DEFAULT_TOPIC_MEMBER_PERMISSIONS)]
        else [])
        [] (chan.permissions.getD []) = ∅ := by
      rw [hc]
      unfold _calc_final_permissions
      simp [hnopub]
    rw [hcalc, sortedPerms_empty]

/-- Witness for the amended C5 at the plain topic channel with members
bob and eve owned by own. -/
theorem claim_C5_topic_amended_witness :
    ((fetch_user_permissions envEmptyRoles cacheC5 (some "t1") none (some "own")).1
        = .ok CHANNEL_OWNER_PERMISSIONS)
    ∧ (∃ l, (fetch_user_permissions envEmptyRoles cacheC5 (some "t1") none (some "bob")).1
        = .ok l ∧ "channels.view" ∈ l)
    ∧ ((fetch_user_permissions envEmptyRoles cacheC5 (some "t1") none (some "zz")).1
        = .ok []) := by
  obtain ⟨h1, h2, h3⟩ := claim_C5_topic_amended envEmptyRoles cacheC5 "t1" "bob,eve"
    "own" chanC5w (by decide) (by decide) (by decide) (by decide) (by decide)
    (by decide) (by decide)
  exact ⟨h1 (by decide),
    h2 "bob" (by decide) (by decide) (by decide) (by decide) "channels.view" (by decide),
    h3 "zz" (by decide) (by decide) (by decide) (by decide)⟩

/-- Counterexample to C5 as stated: bob is a listed non-owner member of
the topic channel with no explicit role, yet an empty channel overwrite
for the synthetic members role-id makes the result the empty list,
which does not contain the topic default set. -/
theorem claim_C5_counterexample :
    chanC5.get? "kind" = some "topic"
    ∧ chanC5.get? "owner" = some "own"
    ∧ "bob" ∈ pySplitComma "bob"
    ∧ "bob" ≠ "own"
    ∧ (fetch_user_permissions envC5 cacheEmpty (some "t1") none (some "bob")).1
        = .ok []
    ∧ "channels.view" ∈ DEFAULT_TOPIC_MEMBER_PERMISSIONS
    ∧ "channels.view" ∉ ([] : List String) := by
  refine ⟨by decide, by decide, by decide, by decide, by decide, by decide, by decide⟩

/-! Claim C8: the section overwrite parse. -/

/-- C8 (evaluation at the failing input): the channel c8 declares the
section sec1 whose record has no permissions field; json.loads receives
the dict default and the resolution raises TypeError instead of
defaulting the section overwrites to the empty map. -/
theorem claim_C8_section_typeerror :
    chanC8.get? "section" = some "sec1"
    ∧ envC8.dbSections.lookup "sec1" = some ⟨[("name", "general")], none⟩
    ∧ (⟨[("name", "general")], none⟩ : Record).permissions = none
    ∧ (fetch_user_permissions envC8 cacheEmpty (some "c8") none (some "u")).1
        = .error .typeError := by
  refine ⟨by decide, by decide, by decide, by decide⟩

/-! Claim C9: the request gate. -/

/-- C9: when resolution succeeds with a permission list, the request
check fails with the permissionDenied error carrying the required list
and the resolved list exactly when some required permission is missing
from the resolved list, and returns without error otherwise; an empty
required list always passes. -/
theorem claim_C9_check_denied_iff (env : Env) (cache : Cache) (req : Request)
    (permissions perms : List String) (current_user : Option String)
    (hres : (fetch_user_permissions env cache (_fetch_channel_from_request req)
        (_fetch_server_from_request req) current_user).1 = .ok perms) :
    ((check_request_permissions env cache req permissions current_user).1
        = .error (.permissionDenied permissions perms)
      ↔ ∃ p ∈ permissions, p ∉ perms)
    ∧ ((∀ p ∈ permissions, p ∈ perms) →
        (check_request_permissions env cache req permissions current_user).1
          = .ok ()) := by
  unfold check_request_permissions
  have hpair : fetch_user_permissions env cache (_fetch_channel_from_request req)
      (_fetch_server_from_request req) current_user
      = (Except.ok perms,
        (fetch_user_permissions env cache (_fetch_channel_from_request req)
          (_fetch_server_from_request req) current_user).2) := by
    rw [← hres]
  dsimp only
  rw [hpair]
  dsimp only
  by_cases hall : permissions.all (fun p => perms.contains p) = true
  · simp only [hall, if_true]
    constructor
    · constructor
      · intro h
        simp at h
      · rintro ⟨p, hp, hnp⟩
        have hc := List.all_eq_true.mp hall p hp
        exact absurd (List.elem_iff.mp hc) hnp
    · intro _
      trivial
  · simp only [Bool.not_eq_true] at hall
    simp only [hall, if_false]
    constructor
    · constructor
      · intro _
        have h2 : ¬ ∀ p ∈ permissions, perms.contains p = true := by
          intro hf
          rw [List.all_eq_true.mpr hf] at hall
          cases hall
        push_neg at h2
        obtain ⟨p, hp, hnc⟩ := h2
        exact ⟨p, hp, fun hm => hnc (List.elem_iff.mpr hm)⟩
      · intro _
        trivial
    · intro hforall
      exfalso
      have hf : permissions.all (fun p => perms.contains p) = true :=
        List.all_eq_true.mpr (fun p hp => List.elem_iff.mpr (hforall p hp))
      rw [hf] at hall
      cases hall

/-- Witness for C9 at a context-less request whose resolution yields the
default user permissions. -/
theorem claim_C9_check_denied_iff_witness :
    (((check_request_permissions envEmptyRoles cacheEmpty ⟨"/x", none⟩
          ["messages.list"] (some "u")).1
        = .error (.permissionDenied ["messages.list"] ["channels.create"]))
      ↔ ∃ p ∈ ["messages.list"], p ∉ ["channels.create"])
    ∧ ((∀ p ∈ ["messages.list"], p ∈ ["channels.create"]) →
        (check_request_permissions envEmptyRoles cacheEmpty ⟨"/x", none⟩
            ["messages.list"] (some "u")).1 = .ok ()) :=
  claim_C9_check_denied_iff envEmptyRoles cacheEmpty ⟨"/x", none⟩
    ["messages.list"] ["channels.create"] (some "u") (by decide)

end NewShades
